import Mathlib

/-!
# Verification of the address-book CRUD service (`src/main.py`)

Shallow embedding of the FastAPI + SQLAlchemy + SQLite service in `src/main.py`.

Modelling decisions, all traceable to the source or to the documented
semantics of the libraries the source calls:

* The persisted store (the SQLite table `addresses`) is a list of `Address`
  records in rowid order.  `id` is declared `Integer, primary_key=True`
  (main.py line 37), i.e. a SQLite `INTEGER PRIMARY KEY` rowid alias without
  `AUTOINCREMENT`: on insert SQLite assigns rowid `max(existing rowids) + 1`
  (or `1` for an empty table), and an un-ordered full-table scan returns rows
  in rowid order.
* Each route opens a fresh `SessionLocal()` (sessionmaker with
  `autocommit=False, autoflush=False`).  Changes staged in a session reach
  the persisted store only at `db.commit()`; a session that is dropped
  without committing is rolled back when its connection returns to the pool.
  Consequently the handler for `DELETE /addresses/{id}` (main.py lines
  187-201), which ends at `db.delete(db_address)` with no `commit()`, no
  `close()` and no `return`, leaves the persisted store unchanged and leaks
  its session; this is modelled exactly as written.
* Each handler is a function from the persisted store to a `HandlerResult`:
  the HTTP outcome (`Except ApiError α`), the persisted store after the
  request, and whether the handler closed its session on the path taken.
* `skip`/`limit` of `GET /addresses/` are passed to SQLite `OFFSET`/`LIMIT`
  unchecked (main.py line 113).  SQLite treats a negative `OFFSET` as `0`
  and a negative `LIMIT` as "no limit".
* Python floats and strings are `Float` and `String`; the service only
  stores and returns them, never computes with them.
-/

set_option autoImplicit false

namespace AddressBook

/-- Pydantic input model `AddressCreate` (main.py lines 56-63): the seven
caller-supplied fields, all required. -/
structure AddressCreate where
  latitude : Float
  longitude : Float
  name : String
  address : String
  city : String
  state : String
  zip_code : String

/-- ORM model `Address` for one row of the `addresses` table
(main.py lines 32-44): the caller fields plus the store-assigned `id`. -/
structure Address where
  id : Int
  latitude : Float
  longitude : Float
  name : String
  address : String
  city : String
  state : String
  zip_code : String

/-- The persisted SQLite store: the `addresses` table as a list of rows in
rowid order. -/
structure DB where
  records : List Address

/-- Errors the service signals to the client: `HTTPException(404, "Address
not found")` raised by the handlers, and the 422 validation error FastAPI
produces when the request body does not satisfy `AddressCreate`. -/
inductive ApiError where
  | notFound (detail : String)
  | validationError
deriving DecidableEq

/-- Outcome of one handler invocation: the HTTP result, the persisted store
after the request, and whether the handler called `db.close()` on the path
it took. -/
structure HandlerResult (α : Type) where
  result : Except ApiError α
  db : DB
  sessionClosed : Bool

/-- Largest `id` present in the table (`0` when empty). -/
def maxId (rs : List Address) : Int :=
  rs.foldr (fun r m => max r.id m) 0

/-- The rowid SQLite assigns to the next inserted row: one more than the
largest rowid in use, `1` for an empty table. -/
def nextId (rs : List Address) : Int :=
  maxId rs + 1

/-- `Address(**address.dict())` plus the store-assigned id: the row built by
`create_address` (main.py line 85) as it stands after `db.commit()` and
`db.refresh`. -/
def mkAddress (id : Int) (a : AddressCreate) : Address :=
  { id := id
    latitude := a.latitude
    longitude := a.longitude
    name := a.name
    address := a.address
    city := a.city
    state := a.state
    zip_code := a.zip_code }

/-- Handler of `POST /addresses/` (main.py lines 79-98): build the row, add,
commit (so the insert is persisted), refresh, close, return the row. -/
def create_address (db : DB) (address : AddressCreate) : HandlerResult Address :=
  let db_address := mkAddress (nextId db.records) address
  { result := .ok db_address
    db := ⟨db.records ++ [db_address]⟩
    sessionClosed := true }

/-- SQLite `OFFSET skip`: skips `skip` rows, a negative offset behaving
as `0`. -/
def sqliteOffset (skip : Int) (rs : List Address) : List Address :=
  rs.drop skip.toNat

/-- SQLite `LIMIT limit`: keeps at most `limit` rows, a negative limit
meaning no limit at all. -/
def sqliteLimit (limit : Int) (rs : List Address) : List Address :=
  if limit < 0 then rs else rs.take limit.toNat

/-- Handler of `GET /addresses/` (main.py lines 106-119):
`db.query(Address).offset(skip).limit(limit).all()`, then close.  A pure
query: the store is untouched. -/
def read_addresses (db : DB) (skip : Int) (limit : Int) : HandlerResult (List Address) :=
  { result := .ok (sqliteLimit limit (sqliteOffset skip db.records))
    db := db
    sessionClosed := true }

/-- The same route with FastAPI's query-parameter defaults applied
(main.py line 108: `skip: int = 0, limit: int = 10`): an absent parameter
takes the default. -/
def read_addresses_route (db : DB) (skip : Option Int) (limit : Option Int) :
    HandlerResult (List Address) :=
  read_addresses db (skip.getD 0) (limit.getD 10)

/-- Handler of `GET /addresses/{address_id}` (main.py lines 127-144):
`db.query(Address).filter(Address.id == address_id).first()`, close, then
404 if `None` else return the row.  A pure query: the store is untouched,
and the session is closed on both paths. -/
def read_address (db : DB) (address_id : Int) : HandlerResult Address :=
  { result :=
      match db.records.find? (fun r => r.id == address_id) with
      | none => .error (.notFound "Address not found")
      | some address => .ok address
    db := db
    sessionClosed := true }

/-- The `setattr` loop of `update_address` (main.py lines 167-168):
`address.dict()` holds exactly the seven `AddressCreate` fields, so every
non-id column is overwritten and `id` is left as it was. -/
def setFields (r : Address) (a : AddressCreate) : Address :=
  { id := r.id
    latitude := a.latitude
    longitude := a.longitude
    name := a.name
    address := a.address
    city := a.city
    state := a.state
    zip_code := a.zip_code }

/-- Effect on the table of committing the `setattr` update: the first row
matching the id (the one `.first()` returned) is overwritten in place, its
rowid unchanged. -/
def updateFirst (rs : List Address) (address_id : Int) (a : AddressCreate) : List Address :=
  match rs with
  | [] => []
  | r :: rest =>
    if r.id == address_id then setFields r a :: rest
    else r :: updateFirst rest address_id a

/-- Handler of `PUT /addresses/{address_id}` (main.py lines 152-180): query
first match; if `None` close and raise 404 (store untouched); otherwise
`setattr` every field from the input, commit (persisting the overwrite),
refresh, close, return the updated row. -/
def update_address (db : DB) (address_id : Int) (address : AddressCreate) :
    HandlerResult Address :=
  match db.records.find? (fun r => r.id == address_id) with
  | none =>
    { result := .error (.notFound "Address not found")
      db := db
      sessionClosed := true }
  | some db_address =>
    { result := .ok (setFields db_address address)
      db := ⟨updateFirst db.records address_id address⟩
      sessionClosed := true }

/-- Handler of `DELETE /addresses/{address_id}` (main.py lines 187-201),
exactly as the source ends: query first match; if `None` close and raise
404; otherwise `db.delete(db_address)` stages the deletion in the session
and the function ends — no `db.commit()`, no `db.close()`, no `return`.
The staged deletion is rolled back with the abandoned session, so the
persisted store is unchanged, the session is never closed on this path, and
FastAPI serialises the implicit `None` as a 200 success. -/
def delete_address (db : DB) (address_id : Int) : HandlerResult Unit :=
  match db.records.find? (fun r => r.id == address_id) with
  | none =>
    { result := .error (.notFound "Address not found")
      db := db
      sessionClosed := true }
  | some _ =>
    { result := .ok ()
      db := db
      sessionClosed := false }

/-! ## Request-body validation for `POST /addresses/`

FastAPI parses the JSON body and validates it against the declared pydantic
model `AddressCreate` before `create_address` runs; a body that fails
validation is answered with a 422 error and the handler — hence any store
access — never happens.  Pydantic does not check raw JSON types strictly:
it coerces where it can.  For the two `float` fields it accepts a JSON
number and also a numeric JSON string (v1 applies Python `float(v)`; v2's
default lax mode converts numeric strings), rejecting only strings that do
not parse as a float.  For the five `str` fields it accepts any JSON
string; a JSON number is coerced to its text by pydantic v1 (`str(v)`) but
rejected by pydantic v2.  The repository pins no pydantic version, so the
one point where the two deployed majors differ — number-to-string
coercion — is a Boolean parameter `coerceNum` of the validator, and every
theorem below holds for both values. -/

/-- A JSON scalar supplied for one field of the request body.  JSON strings
are split by the outcome of the numeric-string coercion test (Python
`float(s)`): `numericStr` carries a string together with the float it
parses to (e.g. `"40.7"`), `otherStr` a string that does not parse as a
float (e.g. `"HQ"`). -/
inductive JsonValue where
  | num (x : Float)
  | numericStr (s : String) (x : Float)
  | otherStr (s : String)

/-- Raw JSON request body for `POST /addresses/`: each declared field either
present with some JSON value or absent. -/
structure RawBody where
  latitude : Option JsonValue
  longitude : Option JsonValue
  name : Option JsonValue
  address : Option JsonValue
  city : Option JsonValue
  state : Option JsonValue
  zip_code : Option JsonValue

/-- Pydantic validation/coercion of one `float`-annotated field: a JSON
number is taken as is, a numeric JSON string is coerced to the float it
parses to (both pydantic versions), any other string — and an absent
field — is rejected. -/
def floatField : Option JsonValue → Option Float
  | some (.num x) => some x
  | some (.numericStr _ x) => some x
  | _ => none

/-- Stand-in for Python `str(x)`, the text pydantic v1 stores when it
coerces a JSON number into a `str` field.  No theorem below depends on the
exact text produced. -/
def pythonStr (x : Float) : String :=
  toString x

/-- Pydantic validation/coercion of one `str`-annotated field: any JSON
string is accepted as is; a JSON number is coerced to its text by pydantic
v1 (`coerceNum = true`) and rejected by pydantic v2 (`coerceNum = false`);
an absent field is rejected. -/
def strField (coerceNum : Bool) : Option JsonValue → Option String
  | some (.numericStr s _) => some s
  | some (.otherStr s) => some s
  | some (.num x) => if coerceNum then some (pythonStr x) else none
  | none => none

/-- Pydantic validation of the whole body against `AddressCreate`
(main.py lines 56-63): every field is required and its value must be
acceptable — possibly by coercion — for the annotated type; `none` means a
422 validation error. -/
def validateAddressCreate (coerceNum : Bool) (raw : RawBody) : Option AddressCreate := do
  let latitude ← floatField raw.latitude
  let longitude ← floatField raw.longitude
  let name ← strField coerceNum raw.name
  let address ← strField coerceNum raw.address
  let city ← strField coerceNum raw.city
  let state ← strField coerceNum raw.state
  let zip_code ← strField coerceNum raw.zip_code
  pure { latitude, longitude, name, address, city, state, zip_code }

/-- Outcome of a full route invocation starting from the raw body: the HTTP
result and the persisted store afterwards. -/
structure RouteResult (α : Type) where
  result : Except ApiError α
  db : DB

/-- The full `POST /addresses/` route: FastAPI validates the body first and
only a valid body reaches `create_address`; an invalid one is rejected with
the 422 error before any session is opened or the store touched. -/
def post_addresses_route (coerceNum : Bool) (db : DB) (raw : RawBody) : RouteResult Address :=
  match validateAddressCreate coerceNum raw with
  | none => { result := .error .validationError, db := db }
  | some address =>
    let h := create_address db address
    { result := h.result, db := h.db }

/-! ## Sequences of mutating operations

Used to state the identifier-freshness invariant: run any sequence of the
mutating routes against the persisted store and collect the ids the store
assigns to created records. -/

/-- One mutating API call. -/
inductive Op where
  | create (a : AddressCreate)
  | update (id : Int) (a : AddressCreate)
  | delete (id : Int)

/-- Apply one mutating call to the persisted store, returning the new store
and the id assigned when the call was a create. -/
def applyOp (db : DB) : Op → DB × Option Int
  | .create a => ((create_address db a).db, some (nextId db.records))
  | .update id a => ((update_address db id a).db, none)
  | .delete id => ((delete_address db id).db, none)

/-- Run a sequence of mutating calls from a store, collecting in order the
ids assigned to created records. -/
def runOps (db : DB) : List Op → DB × List Int
  | [] => (db, [])
  | op :: ops =>
    let step := applyOp db op
    let rest := runOps step.1 ops
    (rest.1, step.2.toList ++ rest.2)

/-- The ids assigned by the creates of `ops`, in order, starting from
store `db`. -/
def assignedIds (db : DB) (ops : List Op) : List Int :=
  (runOps db ops).2

/-- Whether a body field carries a value pydantic can turn into a float:
a JSON number or a numeric JSON string.  An absent field cannot (all
fields of `AddressCreate` are required). -/
def floatCoercible : Option JsonValue → Bool
  | some (.num _) => true
  | some (.numericStr _ _) => true
  | _ => false

/-- Whether a body field carries a value pydantic can turn into a str: any
JSON string, and under pydantic v1 (`coerceNum = true`) also a JSON
number.  An absent field cannot. -/
def strCoercible (coerceNum : Bool) : Option JsonValue → Bool
  | some (.num _) => coerceNum
  | some (.numericStr _ _) => true
  | some (.otherStr _) => true
  | none => false

/-- The amended trigger of the validation claim: the body is missing a
required field, or supplies a value pydantic cannot coerce to the
annotated type. -/
def missingOrUncoercible (coerceNum : Bool) (raw : RawBody) : Bool :=
  !(floatCoercible raw.latitude && floatCoercible raw.longitude &&
    strCoercible coerceNum raw.name && strCoercible coerceNum raw.address &&
    strCoercible coerceNum raw.city && strCoercible coerceNum raw.state &&
    strCoercible coerceNum raw.zip_code)

/-- Repeatedly hit the create route: the store after creating each input of
`inputs` in turn, starting from `db`. -/
def createAll (db : DB) (inputs : List AddressCreate) : DB :=
  inputs.foldl (fun d a => (create_address d a).db) db

/-! ## Concrete instances used by witnesses and counterexamples -/

/-- The empty store (freshly created `addresses` table). -/
def emptyDb : DB :=
  ⟨[]⟩

/-- The concrete valid input of the spec's worked scenario. -/
def sampleInput : AddressCreate :=
  { latitude := 40.7
    longitude := -74.0
    name := "HQ"
    address := "1 Main St"
    city := "NYC"
    state := "NY"
    zip_code := "10001" }

/-- A second, different valid input. -/
def sampleInput2 : AddressCreate :=
  { latitude := 37.8
    longitude := -122.4
    name := "Branch"
    address := "2 Market St"
    city := "SF"
    state := "CA"
    zip_code := "94105" }

/-- A one-record store holding `sampleInput` under id 1. -/
def sampleDb : DB :=
  ⟨[mkAddress 1 sampleInput]⟩

/-- A store holding eleven records, created through the create route. -/
def elevenRecords : DB :=
  createAll emptyDb (List.replicate 11 sampleInput)

/-- A raw request body with every field valid except `zip_code`, which is
absent: the spec's example of a missing required field. -/
def rawMissingZip : RawBody :=
  { latitude := some (.num 40.7)
    longitude := some (.num (-74.0))
    name := some (.otherStr "HQ")
    address := some (.otherStr "1 Main St")
    city := some (.otherStr "NYC")
    state := some (.otherStr "NY")
    zip_code := none }

/-- A raw request body whose `latitude` is the JSON *string* `"40.7"` — a
wrong-typed field (the OpenAPI schema declares a number) that pydantic of
either version nevertheless coerces and accepts. -/
def rawStringLatitude : RawBody :=
  { latitude := some (.numericStr "40.7" 40.7)
    longitude := some (.num (-74.0))
    name := some (.otherStr "HQ")
    address := some (.otherStr "1 Main St")
    city := some (.otherStr "NYC")
    state := some (.otherStr "NY")
    zip_code := some (.numericStr "10001" 10001.0) }

/-- A raw request body whose `latitude` is the JSON string `"abc"`, which
no pydantic version can coerce to a float. -/
def rawBadLatitude : RawBody :=
  { latitude := some (.otherStr "abc")
    longitude := some (.num (-74.0))
    name := some (.otherStr "HQ")
    address := some (.otherStr "1 Main St")
    city := some (.otherStr "NYC")
    state := some (.otherStr "NY")
    zip_code := some (.numericStr "10001" 10001.0) }

/-! ## Helper lemmas: rowid assignment -/

theorem maxId_nil : maxId [] = 0 :=
  rfl

theorem maxId_cons (r : Address) (rs : List Address) :
    maxId (r :: rs) = max r.id (maxId rs) :=
  rfl

theorem maxId_nonneg (rs : List Address) : 0 ≤ maxId rs := by
  induction rs with
  | nil => simp [maxId_nil]
  | cons r rs ih => rw [maxId_cons]; omega

theorem id_le_maxId {rs : List Address} {r : Address} (h : r ∈ rs) :
    r.id ≤ maxId rs := by
  induction rs with
  | nil => cases h
  | cons x rs ih =>
    rw [maxId_cons]
    rcases List.mem_cons.mp h with h1 | h1
    · subst h1; omega
    · have := ih h1; omega

theorem lt_nextId {rs : List Address} {r : Address} (h : r ∈ rs) :
    r.id < nextId rs := by
  have := id_le_maxId h
  unfold nextId
  omega

theorem maxId_append_singleton (rs : List Address) (x : Address) :
    maxId (rs ++ [x]) = max (maxId rs) (max x.id 0) := by
  induction rs with
  | nil => simp only [List.nil_append, maxId_cons, maxId_nil]; omega
  | cons r rs ih => simp only [List.cons_append, maxId_cons, ih]; omega

theorem maxId_create (db : DB) (a : AddressCreate) :
    maxId ((create_address db a).db).records = maxId db.records + 1 := by
  show maxId (db.records ++ [mkAddress (nextId db.records) a]) = maxId db.records + 1
  rw [maxId_append_singleton]
  have := maxId_nonneg db.records
  show max (maxId db.records) (max (nextId db.records) 0) = maxId db.records + 1
  unfold nextId
  omega

/-! ## Helper lemmas: the update and delete handlers on the store -/

theorem setFields_id (r : Address) (a : AddressCreate) :
    (setFields r a).id = r.id :=
  rfl

theorem ids_updateFirst (rs : List Address) (i : Int) (a : AddressCreate) :
    (updateFirst rs i a).map (fun r => r.id) = rs.map (fun r => r.id) := by
  induction rs with
  | nil => rfl
  | cons r rs ih =>
    simp only [updateFirst]
    split
    · simp [setFields]
    · simp [ih]

theorem maxId_eq_foldr_map (rs : List Address) :
    maxId rs = (rs.map (fun r => r.id)).foldr max 0 := by
  induction rs with
  | nil => rfl
  | cons r rs ih => simp [maxId_cons, ih]

theorem maxId_update (db : DB) (i : Int) (a : AddressCreate) :
    maxId ((update_address db i a).db).records = maxId db.records := by
  cases h : db.records.find? (fun r => r.id == i) with
  | none => simp [update_address, h]
  | some r =>
    simp only [update_address, h]
    show maxId (updateFirst db.records i a) = maxId db.records
    rw [maxId_eq_foldr_map, ids_updateFirst, ← maxId_eq_foldr_map]

theorem delete_address_db (db : DB) (i : Int) :
    (delete_address db i).db = db := by
  cases h : db.records.find? (fun r => r.id == i) with
  | none => simp [delete_address, h]
  | some r => simp [delete_address, h]

theorem updateFirst_find? (rs : List Address) (i : Int) (a : AddressCreate)
    (r0 : Address) (h : rs.find? (fun r => r.id == i) = some r0) :
    (updateFirst rs i a).find? (fun r => r.id == i) = some (setFields r0 a) := by
  induction rs with
  | nil => simp at h
  | cons r rs ih =>
    by_cases hr : r.id = i
    · have hb : (r.id == i) = true := by simp [hr]
      rw [List.find?_cons_of_pos (p := fun x : Address => x.id == i) (a := r) rs hb] at h
      injection h with h
      subst h
      simp only [updateFirst, if_pos hb]
      exact List.find?_cons_of_pos (p := fun x : Address => x.id == i)
        (a := setFields r a) rs
        (show ((setFields r a).id == i) = true by simpa [setFields] using hb)
    · have hb : (r.id == i) = false := by simp [hr]
      rw [List.find?_cons_of_neg (p := fun x : Address => x.id == i) (a := r) rs
        (show ¬(r.id == i) = true by simp [hb])] at h
      simp only [updateFirst, if_neg (show ¬(r.id == i) = true by simp [hb])]
      rw [List.find?_cons_of_neg (p := fun x : Address => x.id == i) (a := r)
        (updateFirst rs i a) (show ¬(r.id == i) = true by simp [hb])]
      exact ih h

/-! ## Helper lemmas: operation sequences and assigned ids -/

theorem maxId_applyOp (db : DB) (op : Op) :
    maxId db.records ≤ maxId ((applyOp db op).1).records := by
  cases op with
  | create a =>
    show maxId db.records ≤ maxId ((create_address db a).db).records
    rw [maxId_create]
    omega
  | update i a =>
    show maxId db.records ≤ maxId ((update_address db i a).db).records
    rw [maxId_update]
  | delete i =>
    show maxId db.records ≤ maxId ((delete_address db i).db).records
    rw [delete_address_db]

theorem assigned_gt (ops : List Op) :
    ∀ db : DB, ∀ x ∈ (runOps db ops).2, maxId db.records < x := by
  induction ops with
  | nil => intro db x hx; simp [runOps] at hx
  | cons op ops ih =>
    intro db x hx
    simp only [runOps] at hx
    rcases List.mem_append.mp hx with h1 | h1
    · cases op with
      | create a =>
        simp only [applyOp, Option.toList, List.mem_singleton] at h1
        subst h1
        unfold nextId
        omega
      | update i a => simp [applyOp] at h1
      | delete i => simp [applyOp] at h1
    · have h2 := ih (applyOp db op).1 x h1
      have h3 := maxId_applyOp db op
      omega

theorem assigned_pairwise (ops : List Op) :
    ∀ db : DB, ((runOps db ops).2).Pairwise (· < ·) := by
  induction ops with
  | nil => intro db; simp [runOps]
  | cons op ops ih =>
    intro db
    simp only [runOps]
    cases op with
    | create a =>
      simp only [applyOp, Option.toList, List.singleton_append]
      refine List.Pairwise.cons ?_ (ih _)
      intro y hy
      have hgt := assigned_gt ops (applyOp db (.create a)).1 y hy
      have hmax : maxId ((applyOp db (.create a)).1).records = maxId db.records + 1 :=
        maxId_create db a
      rw [hmax] at hgt
      unfold nextId
      omega
    | update i a =>
      simp only [applyOp, Option.toList, List.nil_append]
      exact ih _
    | delete i =>
      simp only [applyOp, Option.toList, List.nil_append]
      exact ih _

/-! ## Helper lemmas: validation -/

theorem floatCoercible_of_floatField {o : Option JsonValue} {x : Float}
    (h : floatField o = some x) : floatCoercible o = true := by
  cases o with
  | none => simp [floatField] at h
  | some v =>
    cases v with
    | num y => rfl
    | numericStr s y => rfl
    | otherStr s => simp [floatField] at h

theorem strCoercible_of_strField {v : Bool} {o : Option JsonValue} {s : String}
    (h : strField v o = some s) : strCoercible v o = true := by
  cases o with
  | none => simp [strField] at h
  | some w =>
    cases w with
    | num y =>
      cases v with
      | false => simp [strField] at h
      | true => rfl
    | numericStr t y => rfl
    | otherStr t => rfl

theorem missingOrUncoercible_of_validate_some {v : Bool} {raw : RawBody}
    {a : AddressCreate} (h : validateAddressCreate v raw = some a) :
    missingOrUncoercible v raw = false := by
  unfold validateAddressCreate at h
  simp only [Option.bind_eq_bind, Option.bind_eq_some] at h
  obtain ⟨lat, hlat, lon, hlon, nm, hnm, ad, had, ci, hci, st, hst, zi, hzi, -⟩ := h
  unfold missingOrUncoercible
  rw [floatCoercible_of_floatField hlat, floatCoercible_of_floatField hlon,
    strCoercible_of_strField hnm, strCoercible_of_strField had,
    strCoercible_of_strField hci, strCoercible_of_strField hst,
    strCoercible_of_strField hzi]
  rfl

/-! ## The claims -/

/-- **C1.** For every store state and every valid input, `create_address`
returns a record whose seven non-id fields equal the input and whose id is
the one the store assigned (`nextId`), and an immediate `read_address` on
that id against the store left by the create succeeds and returns exactly
that record. -/
theorem create_then_get (db : DB) (input : AddressCreate) :
    ∃ r : Address,
      (create_address db input).result = .ok r ∧
      r.id = nextId db.records ∧
      r.latitude = input.latitude ∧ r.longitude = input.longitude ∧
      r.name = input.name ∧ r.address = input.address ∧ r.city = input.city ∧
      r.state = input.state ∧ r.zip_code = input.zip_code ∧
      (read_address (create_address db input).db r.id).result = .ok r := by
  refine ⟨mkAddress (nextId db.records) input,
    rfl, rfl, rfl, rfl, rfl, rfl, rfl, rfl, rfl, ?_⟩
  have hnone : db.records.find? (fun r => r.id == nextId db.records) = none :=
    List.find?_eq_none.mpr (fun x hx => by simpa using ne_of_lt (lt_nextId hx))
  have happ : (db.records ++ [mkAddress (nextId db.records) input]).find?
      (fun r => r.id == nextId db.records) = some (mkAddress (nextId db.records) input) := by
    rw [List.find?_append, hnone]
    simp [mkAddress]
  show (read_address ⟨db.records ++ [mkAddress (nextId db.records) input]⟩
      (nextId db.records)).result = .ok (mkAddress (nextId db.records) input)
  simp only [read_address]
  rw [happ]

/-- **C2 (code bug).** The delete handler, run on a store holding the
record with id 1, reports success — but because the source ends at
`db.delete(db_address)` with no `commit()`, the persisted store still holds
the record and an immediate `read_address 1` returns it instead of failing
with 404, contradicting the claim that a deleted id becomes irrecoverable. -/
theorem delete_then_get_still_found :
    (delete_address sampleDb 1).result = .ok () ∧
    (delete_address sampleDb 1).db = sampleDb ∧
    (read_address (delete_address sampleDb 1).db 1).result =
      .ok (mkAddress 1 sampleInput) := by
  refine ⟨rfl, rfl, rfl⟩

/-- **C3.** For every store state containing the identifier, updating it
with any valid input overwrites all seven non-id fields with the input (no
merge), leaves the id unchanged, and an immediate `read_address` on the id
against the store left by the update returns exactly the new input plus
that id. -/
theorem update_then_get (db : DB) (address_id : Int) (input : AddressCreate)
    (h : ∃ r ∈ db.records, r.id = address_id) :
    ∃ r : Address,
      (update_address db address_id input).result = .ok r ∧
      r.id = address_id ∧
      r.latitude = input.latitude ∧ r.longitude = input.longitude ∧
      r.name = input.name ∧ r.address = input.address ∧ r.city = input.city ∧
      r.state = input.state ∧ r.zip_code = input.zip_code ∧
      (read_address (update_address db address_id input).db address_id).result = .ok r := by
  cases hf : db.records.find? (fun r => r.id == address_id) with
  | none =>
    obtain ⟨r, hr, hid⟩ := h
    exact absurd (by simp [hid]) (List.find?_eq_none.mp hf r hr)
  | some r0 =>
    have hid0 : r0.id = address_id := by simpa using List.find?_some hf
    refine ⟨setFields r0 input, ?_, ?_, rfl, rfl, rfl, rfl, rfl, rfl, rfl, ?_⟩
    · simp [update_address, hf]
    · simp [setFields, hid0]
    · simp only [update_address, hf]
      simp only [read_address]
      rw [updateFirst_find? db.records address_id input r0 hf]

/-- **C3 witness.** Instantiated on the one-record store: updating id 1
with the second sample input succeeds and the subsequent get returns the
new fields under id 1. -/
theorem update_then_get_witness :
    (∃ r ∈ sampleDb.records, r.id = 1) ∧
    ∃ r : Address,
      (update_address sampleDb 1 sampleInput2).result = .ok r ∧
      r.id = 1 ∧
      r.latitude = sampleInput2.latitude ∧ r.longitude = sampleInput2.longitude ∧
      r.name = sampleInput2.name ∧ r.address = sampleInput2.address ∧
      r.city = sampleInput2.city ∧ r.state = sampleInput2.state ∧
      r.zip_code = sampleInput2.zip_code ∧
      (read_address (update_address sampleDb 1 sampleInput2).db 1).result = .ok r :=
  ⟨⟨mkAddress 1 sampleInput, by simp [sampleDb], rfl⟩,
    update_then_get sampleDb 1 sampleInput2 ⟨mkAddress 1 sampleInput, by simp [sampleDb], rfl⟩⟩

theorem createAll_length (inputs : List AddressCreate) :
    ∀ db : DB, (createAll db inputs).records.length = db.records.length + inputs.length := by
  induction inputs with
  | nil => intro db; simp [createAll]
  | cons a as ih =>
    intro db
    show (createAll (create_address db a).db as).records.length = _
    rw [ih]
    simp only [create_address, List.length_append, List.length_cons, List.length_nil,
      List.length_singleton]
    omega

/-- **C4.** Listing returns the stored records in table (rowid/insertion)
order, skipping the first `skip` and keeping at most `limit` (for
non-negative arguments); in particular, after creating 15 records into the
empty store, `skip=0, limit=10` returns exactly the first 10 records and
`skip=10, limit=10` exactly the remaining 5, in the same order. -/
theorem list_pagination (db : DB) (skip limit : Int) (_hs : 0 ≤ skip) (hl : 0 ≤ limit)
    (inputs : List AddressCreate) (h15 : inputs.length = 15) :
    (read_addresses db skip limit).result =
      .ok ((db.records.drop skip.toNat).take limit.toNat) ∧
    (read_addresses (createAll emptyDb inputs) 0 10).result =
      .ok ((createAll emptyDb inputs).records.take 10) ∧
    ((createAll emptyDb inputs).records.take 10).length = 10 ∧
    (read_addresses (createAll emptyDb inputs) 10 10).result =
      .ok ((createAll emptyDb inputs).records.drop 10) ∧
    ((createAll emptyDb inputs).records.drop 10).length = 5 := by
  have hlen : (createAll emptyDb inputs).records.length = 15 := by
    rw [createAll_length inputs emptyDb, h15]
    rfl
  have h5 : ((createAll emptyDb inputs).records.drop 10).length = 5 := by
    rw [List.length_drop, hlen]
  have ht0 : (0:Int).toNat = 0 := rfl
  have ht10 : (10:Int).toNat = 10 := rfl
  have h10 : ¬(10:Int) < 0 := by norm_num
  refine ⟨?_, ?_, ?_, ?_, h5⟩
  · simp [read_addresses, sqliteOffset, sqliteLimit, not_lt.mpr hl]
  · simp only [read_addresses, sqliteOffset, sqliteLimit, ht0, ht10, List.drop_zero,
      if_neg h10]
  · rw [List.length_take, hlen]
    omega
  · have htake : ((createAll emptyDb inputs).records.drop 10).take 10 =
        (createAll emptyDb inputs).records.drop 10 :=
      List.take_of_length_le (by rw [h5]; norm_num)
    simp only [read_addresses, sqliteOffset, sqliteLimit, ht10, if_neg h10, htake]

/-- **C4 witness.** Instantiated with the one-record store, `skip=0`,
`limit=10`, and fifteen copies of the sample input created into the empty
store. -/
theorem list_pagination_witness :
    ((0:Int) ≤ 0 ∧ (0:Int) ≤ 10 ∧ (List.replicate 15 sampleInput).length = 15) ∧
    (read_addresses sampleDb 0 10).result =
      .ok ((sampleDb.records.drop (0:Int).toNat).take (10:Int).toNat) ∧
    (read_addresses (createAll emptyDb (List.replicate 15 sampleInput)) 0 10).result =
      .ok ((createAll emptyDb (List.replicate 15 sampleInput)).records.take 10) ∧
    ((createAll emptyDb (List.replicate 15 sampleInput)).records.take 10).length = 10 ∧
    (read_addresses (createAll emptyDb (List.replicate 15 sampleInput)) 10 10).result =
      .ok ((createAll emptyDb (List.replicate 15 sampleInput)).records.drop 10) ∧
    ((createAll emptyDb (List.replicate 15 sampleInput)).records.drop 10).length = 5 :=
  ⟨⟨by decide, by decide, by simp⟩,
    list_pagination sampleDb 0 10 (by decide) (by decide)
      (List.replicate 15 sampleInput) (by simp)⟩

/-- **C5 (code bug).** The create, list, get and update handlers close
their session on every path (update on both its paths), and delete closes
on its 404 path — but the delete success path falls off the end of the
source without `db.close()`: deleting the present id 1 reports success with
the session never closed, refuting release-on-every-exit-path. -/
theorem session_release_paths :
    (∀ (db : DB) (a : AddressCreate), (create_address db a).sessionClosed = true) ∧
    (∀ (db : DB) (skip limit : Int), (read_addresses db skip limit).sessionClosed = true) ∧
    (∀ (db : DB) (i : Int), (read_address db i).sessionClosed = true) ∧
    (∀ (db : DB) (i : Int) (a : AddressCreate), (update_address db i a).sessionClosed = true) ∧
    (delete_address sampleDb 1).result = .ok () ∧
    (delete_address sampleDb 1).sessionClosed = false := by
  refine ⟨fun _ _ => rfl, fun _ _ _ => rfl, fun _ _ => rfl, ?_, rfl, rfl⟩
  intro db i a
  cases h : db.records.find? (fun r => r.id == i) with
  | none => simp [update_address, h]
  | some r => simp [update_address, h]

/-- **C6 counterexample.** A negative limit does not fall back to the
default of 10: on an 11-record store, `limit = -1` returns all 11 records
while `limit = 10` returns only 10, so the two listings differ. -/
theorem negative_limit_not_default :
    (read_addresses elevenRecords 0 (-1)).result ≠
      (read_addresses elevenRecords 0 10).result :=
  fun h => absurd (congrArg (fun e => (e.toOption.getD []).length) h) (by decide)

/-- **C6 (amended).** An absent skip defaults to 0 and an absent limit to
10; a negative skip behaves as skip = 0 (SQLite treats a negative OFFSET as
zero); but a negative limit disables the limit entirely, returning every
record after the offset rather than 10; and an out-of-range non-negative
skip yields the empty sequence. -/
theorem list_defaults_and_negatives (db : DB) (skip limit : Int) :
    read_addresses_route db none none = read_addresses db 0 10 ∧
    (skip < 0 → read_addresses db skip limit = read_addresses db 0 limit) ∧
    (limit < 0 → (read_addresses db skip limit).result = .ok (db.records.drop skip.toNat)) ∧
    (db.records.length ≤ skip.toNat → (read_addresses db skip 10).result = .ok []) := by
  refine ⟨rfl, ?_, ?_, ?_⟩
  · intro h
    simp [read_addresses, sqliteOffset, Int.toNat_of_nonpos (le_of_lt h)]
  · intro h
    simp [read_addresses, sqliteOffset, sqliteLimit, h]
  · intro h
    norm_num [read_addresses, sqliteOffset, sqliteLimit, List.drop_eq_nil_of_le h]

/-- **C6 witness.** The amended behaviour at concrete arguments on the
one-record store: skip = -2 acts as skip = 0, limit = -1 returns everything
after the offset, and skip = 5 beyond the end returns the empty list. -/
theorem list_defaults_and_negatives_witness :
    ((-2:Int) < 0 ∧ read_addresses sampleDb (-2) 7 = read_addresses sampleDb 0 7) ∧
    ((-1:Int) < 0 ∧
      (read_addresses sampleDb 2 (-1)).result = .ok (sampleDb.records.drop (2:Int).toNat)) ∧
    (sampleDb.records.length ≤ (5:Int).toNat ∧
      (read_addresses sampleDb 5 10).result = .ok []) :=
  ⟨⟨by decide, (list_defaults_and_negatives sampleDb (-2) 7).2.1 (by decide)⟩,
    ⟨by decide, (list_defaults_and_negatives sampleDb 2 (-1)).2.2.1 (by decide)⟩,
    ⟨by decide, (list_defaults_and_negatives sampleDb 5 10).2.2.2 (by decide)⟩⟩

/-- **C7.** For every id absent from the store, get, update and delete all
fail with the 404 "Address not found" error — an error distinct from the
validation error — and the failing update and delete leave the store
contents exactly unchanged (as does the failing get). -/
theorem absent_id_not_found (db : DB) (address_id : Int) (a : AddressCreate)
    (h : ∀ r ∈ db.records, r.id ≠ address_id) :
    (read_address db address_id).result = .error (.notFound "Address not found") ∧
    (read_address db address_id).db = db ∧
    (update_address db address_id a).result = .error (.notFound "Address not found") ∧
    (update_address db address_id a).db = db ∧
    (delete_address db address_id).result = .error (.notFound "Address not found") ∧
    (delete_address db address_id).db = db ∧
    (∀ s : String, ApiError.notFound s ≠ ApiError.validationError) := by
  have hf : db.records.find? (fun r => r.id == address_id) = none :=
    List.find?_eq_none.mpr (fun x hx => by simpa using h x hx)
  refine ⟨?_, rfl, ?_, ?_, ?_, ?_, fun s hs => ApiError.noConfusion hs⟩
  · simp [read_address, hf]
  · simp [update_address, hf]
  · simp [update_address, hf]
  · simp [delete_address, hf]
  · simp [delete_address, hf]

/-- **C7 witness.** Instantiated at id 2, absent from the one-record
store. -/
theorem absent_id_not_found_witness :
    (∀ r ∈ sampleDb.records, r.id ≠ 2) ∧
    (read_address sampleDb 2).result = .error (.notFound "Address not found") ∧
    (read_address sampleDb 2).db = sampleDb ∧
    (update_address sampleDb 2 sampleInput2).result = .error (.notFound "Address not found") ∧
    (update_address sampleDb 2 sampleInput2).db = sampleDb ∧
    (delete_address sampleDb 2).result = .error (.notFound "Address not found") ∧
    (delete_address sampleDb 2).db = sampleDb ∧
    (∀ s : String, ApiError.notFound s ≠ ApiError.validationError) :=
  ⟨by decide, absent_id_not_found sampleDb 2 sampleInput2 (by decide)⟩

/-- **C8 counterexample.** A wrong-typed field does not always fail
validation: the body whose `latitude` is the JSON string `"40.7"` (a
string supplied where the schema declares a number) is coerced and
accepted by pydantic of either version (`coerceNum` false or true), the
record is created, and the store's record count grows — refuting the
original claim that every wrong-typed body fails with the validation error
and leaves the record count unchanged. -/
theorem wrong_typed_body_accepted :
    ((post_addresses_route false sampleDb rawStringLatitude).result.toOption.isSome = true ∧
      (post_addresses_route false sampleDb rawStringLatitude).db.records.length =
        sampleDb.records.length + 1) ∧
    ((post_addresses_route true sampleDb rawStringLatitude).result.toOption.isSome = true ∧
      (post_addresses_route true sampleDb rawStringLatitude).db.records.length =
        sampleDb.records.length + 1) :=
  ⟨⟨rfl, rfl⟩, ⟨rfl, rfl⟩⟩

/-- **C8 (amended).** A create request whose body is missing a required
field, or supplies a value pydantic cannot coerce to the annotated type
(e.g. a non-numeric string for a float field), is rejected with the
validation error before the handler — hence any store access — runs: the
store contents and record count are unchanged.  This holds for both
pydantic behaviours (`coerceNum` arbitrary); wrong-typed but coercible
values, such as a numeric string for a float field, are instead accepted
(see the counterexample). -/
theorem invalid_create_rejected (coerceNum : Bool) (db : DB) (raw : RawBody)
    (h : missingOrUncoercible coerceNum raw = true) :
    post_addresses_route coerceNum db raw = ⟨.error .validationError, db⟩ ∧
    (post_addresses_route coerceNum db raw).db.records.length = db.records.length := by
  have hv : validateAddressCreate coerceNum raw = none := by
    cases hv : validateAddressCreate coerceNum raw with
    | none => rfl
    | some a =>
      rw [missingOrUncoercible_of_validate_some hv] at h
      simp at h
  constructor
  · simp [post_addresses_route, hv]
  · simp [post_addresses_route, hv]

/-- **C8 witness.** Both rejection triggers at concrete inputs, under both
pydantic behaviours: the spec's missing-zip-code body, and a body whose
`latitude` is the uncoercible string `"abc"`, each posted against the
one-record store. -/
theorem invalid_create_rejected_witness :
    (missingOrUncoercible false rawMissingZip = true ∧
      post_addresses_route false sampleDb rawMissingZip =
        ⟨.error .validationError, sampleDb⟩) ∧
    (missingOrUncoercible true rawMissingZip = true ∧
      post_addresses_route true sampleDb rawMissingZip =
        ⟨.error .validationError, sampleDb⟩) ∧
    (missingOrUncoercible true rawBadLatitude = true ∧
      post_addresses_route true sampleDb rawBadLatitude =
        ⟨.error .validationError, sampleDb⟩ ∧
      (post_addresses_route true sampleDb rawBadLatitude).db.records.length =
        sampleDb.records.length) :=
  ⟨⟨by decide, (invalid_create_rejected false sampleDb rawMissingZip (by decide)).1⟩,
    ⟨by decide, (invalid_create_rejected true sampleDb rawMissingZip (by decide)).1⟩,
    ⟨by decide, (invalid_create_rejected true sampleDb rawBadLatitude (by decide)).1,
      (invalid_create_rejected true sampleDb rawBadLatitude (by decide)).2⟩⟩

/-- **C9.** Across any sequence of create/update/delete operations run
against any starting store, the ids the store assigns to created records
are strictly increasing — hence pairwise distinct, and never reused for a
later-created record within the store's lifetime (deletes, which in this
code never reach the persisted store, cannot free an id either). -/
theorem create_ids_unique_never_reused (db : DB) (ops : List Op) :
    (assignedIds db ops).Pairwise (· < ·) ∧ (assignedIds db ops).Nodup :=
  ⟨assigned_pairwise ops db,
    List.Pairwise.imp (fun hlt => ne_of_lt hlt) (assigned_pairwise ops db)⟩

/-- **C10.** The get and list handlers are read-only: they issue a single
query and leave the persisted store exactly unchanged, for every store
state and every arguments (the listing route with defaulted parameters
included). -/
theorem reads_leave_store_unchanged (db : DB) (address_id skip limit : Int) :
    (read_address db address_id).db = db ∧
    (read_addresses db skip limit).db = db ∧
    (read_addresses_route db (some skip) (some limit)).db = db ∧
    (read_addresses_route db none none).db = db :=
  ⟨rfl, rfl, rfl, rfl⟩

end AddressBook
